import Mathlib

/-!
Verification of the login codec in
`crates/ruma-client-api/src/session/login.rs` (module `v3`).

The JSON data model, the `LoginInfo` discriminated-union codec, the
secret-redacting debug renderings, and the request/response envelopes are
embedded as executable Lean definitions, translated from the Rust source.
External identifier types (`UserIdentifier`, `AuthData`, the owned id
strings) live outside the given source tree; they are modelled from the
specification where noted.
-/

/-- A structured JSON value, as produced by the generic first parsing pass
of the codec (the shallow model of `serde_json::Value`). Objects are
association lists of key/value pairs. -/
inductive Json where
  | null : Json
  | bool (b : Bool) : Json
  | num (n : Int) : Json
  | str (s : String) : Json
  | arr (elems : List Json) : Json
  | obj (fields : List (String × Json)) : Json

/-- Lookup of a key in a JSON object's field list (first match). -/
def jlookup (k : String) : List (String × Json) → Option Json
  | [] => none
  | (k2, v) :: rest => if k = k2 then some v else jlookup k rest

/-- Remove every pair with the given key from a JSON object's field list. -/
def eraseKeyAll (k : String) (l : List (String × Json)) : List (String × Json) :=
  l.filter (fun p => !(p.1 == k))

/-- The `json["type"]` indexing used by the decoder: on an object it is the
stored value or `null` when absent; on any other value it is `null`. -/
def Json.index (j : Json) (k : String) : Json :=
  match j with
  | .obj fields => (jlookup k fields).getD .null
  | _ => .null

/-- The `as_str` accessor: `some` exactly on JSON strings. -/
def Json.asStr : Json → Option String
  | .str s => some s
  | _ => none

/-- Deserialization errors of the `LoginInfo` codec: `missingField` models
`de::Error::missing_field` (the missing-discriminator case), and
`malformed` models the `E::custom`-wrapped typed-parse failure raised
inside the branch for the given discriminator string. -/
inductive DeError where
  | missingField (field : String) : DeError
  | malformed (loginType : String) (cause : String) : DeError
deriving DecidableEq

/-- Modelled from the spec: the external `Identifier` type (`UserIdentifier`
from the `uiaa` module, not part of the given source tree) identifies the
account "by name, or by third-party medium+address". Its wire shape is a
tagged object with discriminators `m.id.user` and `m.id.thirdparty`. -/
inductive UserIdentifier where
  | userIdOrLocalpart (user : String) : UserIdentifier
  | thirdParty (medium : String) (address : String) : UserIdentifier
deriving DecidableEq

/-- Modelled from the spec: wire encoding of the external identifier type. -/
def UserIdentifier.serialize : UserIdentifier → Json
  | .userIdOrLocalpart user =>
      .obj [("type", .str "m.id.user"), ("user", .str user)]
  | .thirdParty medium address =>
      .obj [("type", .str "m.id.thirdparty"), ("medium", .str medium),
            ("address", .str address)]

/-- Modelled from the spec: wire decoding of the external identifier type. -/
def UserIdentifier.deserialize : Json → Except String UserIdentifier
  | .obj fields =>
    match jlookup "type" fields with
    | some (.str "m.id.user") =>
      match jlookup "user" fields with
      | some (.str user) => .ok (.userIdOrLocalpart user)
      | some _ => .error "invalid type for field user"
      | none => .error "missing field user"
    | some (.str "m.id.thirdparty") =>
      match jlookup "medium" fields, jlookup "address" fields with
      | some (.str medium), some (.str address) => .ok (.thirdParty medium address)
      | _, _ => .error "invalid thirdparty identifier"
    | some (.str _) => .error "unknown identifier type"
    | some _ => .error "invalid type for field type"
    | none => .error "missing field type"
  | _ => .error "invalid type: expected object"

/-- `Password`: an identifier and password supplied as authentication. -/
structure Password where
  identifier : UserIdentifier
  password : String
deriving DecidableEq

/-- `Password::new`. -/
def Password.new (identifier : UserIdentifier) (password : String) : Password :=
  { identifier, password }

/-- `Token`: a token supplied as authentication. -/
structure Token where
  token : String
deriving DecidableEq

/-- `Token::new`. -/
def Token.new (token : String) : Token :=
  { token }

/-- `ApplicationService`: an identifier for Application Service login. -/
structure ApplicationService where
  identifier : UserIdentifier
deriving DecidableEq

/-- `ApplicationService::new`. -/
def ApplicationService.new (identifier : UserIdentifier) : ApplicationService :=
  { identifier }

/-- `CustomLoginInfo`: the catch-all payload, a discriminator string
(serde-renamed to the wire field `type`) plus the flattened map of all
remaining fields. -/
structure CustomLoginInfo where
  login_type : String
  extra : List (String × Json)

/-- `CaminoLoginInfo`: hex-encoded public key and signature. -/
structure CaminoLoginInfo where
  public_key : String
  signature : String
deriving DecidableEq

/-- `CaminoLoginInfo::new`. -/
def CaminoLoginInfo.new (public_key : String) (signature : String) : CaminoLoginInfo :=
  { public_key, signature }

/-- The `LoginInfo` authentication-mechanism enum. -/
inductive LoginInfo where
  | Password (data : Password) : LoginInfo
  | Token (data : Token) : LoginInfo
  | ApplicationService (data : ApplicationService) : LoginInfo
  | _Custom (data : CustomLoginInfo) : LoginInfo
  | Camino (data : CaminoLoginInfo) : LoginInfo

/-- Deserialization of `Password` (internally tagged struct; the tag field
and unknown fields are ignored, the typed fields are required). -/
def Password.deserialize : Json → Except String Password
  | .obj fields =>
    match jlookup "identifier" fields with
    | none => .error "missing field identifier"
    | some idj =>
      match UserIdentifier.deserialize idj with
      | .error e => .error e
      | .ok ident =>
        match jlookup "password" fields with
        | some (.str pw) => .ok { identifier := ident, password := pw }
        | some _ => .error "invalid type for field password"
        | none => .error "missing field password"
  | _ => .error "invalid type: expected object"

/-- Deserialization of `Token`. -/
def Token.deserialize : Json → Except String Token
  | .obj fields =>
    match jlookup "token" fields with
    | some (.str s) => .ok { token := s }
    | some _ => .error "invalid type for field token"
    | none => .error "missing field token"
  | _ => .error "invalid type: expected object"

/-- Deserialization of `ApplicationService`. -/
def ApplicationService.deserialize : Json → Except String ApplicationService
  | .obj fields =>
    match jlookup "identifier" fields with
    | none => .error "missing field identifier"
    | some idj =>
      match UserIdentifier.deserialize idj with
      | .error e => .error e
      | .ok ident => .ok { identifier := ident }
  | _ => .error "invalid type: expected object"

/-- Deserialization of `CaminoLoginInfo`. -/
def CaminoLoginInfo.deserialize : Json → Except String CaminoLoginInfo
  | .obj fields =>
    match jlookup "public_key" fields with
    | some (.str pk) =>
      match jlookup "signature" fields with
      | some (.str sig) => .ok { public_key := pk, signature := sig }
      | some _ => .error "invalid type for field signature"
      | none => .error "missing field signature"
    | some _ => .error "invalid type for field public_key"
    | none => .error "missing field public_key"
  | _ => .error "invalid type: expected object"

/-- Deserialization of `CustomLoginInfo`: the renamed `type` field gives the
discriminator, the serde-flattened `extra` map collects every remaining
field. -/
def CustomLoginInfo.deserialize : Json → Except String CustomLoginInfo
  | .obj fields =>
    match jlookup "type" fields with
    | some (.str t) => .ok { login_type := t, extra := eraseKeyAll "type" fields }
    | some _ => .error "invalid type for field type"
    | none => .error "missing field type"
  | _ => .error "invalid type: expected object"

/-- Serialization of `LoginInfo` (serde-untagged: the inner struct's own
serialization, which emits its `type` tag first, then its fields; the
catch-all variant emits the stored discriminator plus the extra fields). -/
def LoginInfo.serializeFields : LoginInfo → List (String × Json)
  | .Password p =>
      [("type", .str "m.login.password"), ("identifier", p.identifier.serialize),
       ("password", .str p.password)]
  | .Token t => [("type", .str "m.login.token"), ("token", .str t.token)]
  | .ApplicationService a =>
      [("type", .str "m.login.application_service"),
       ("identifier", a.identifier.serialize)]
  | ._Custom c => ("type", .str c.login_type) :: c.extra
  | .Camino c =>
      [("type", .str "m.login.camino"), ("public_key", .str c.public_key),
       ("signature", .str c.signature)]

/-- Serialization of `LoginInfo` as a JSON value. -/
def LoginInfo.serialize (l : LoginInfo) : Json :=
  .obj l.serializeFields

/-- The manual `Deserialize` impl for `LoginInfo`: read the whole input as a
generic JSON value, take `json["type"].as_str()` as the discriminator
(erroring with the missing-field error when absent or not a string), then
dispatch to the matching typed parser, falling through to the catch-all
`_Custom` parser for any unrecognized discriminator. -/
def LoginInfo.deserialize (j : Json) : Except DeError LoginInfo :=
  match Json.asStr (Json.index j "type") with
  | none => .error (.missingField "type")
  | some "m.login.password" =>
      match Password.deserialize j with
      | .ok d => .ok (.Password d)
      | .error e => .error (.malformed "m.login.password" e)
  | some "m.login.token" =>
      match Token.deserialize j with
      | .ok d => .ok (.Token d)
      | .error e => .error (.malformed "m.login.token" e)
  | some "m.login.application_service" =>
      match ApplicationService.deserialize j with
      | .ok d => .ok (.ApplicationService d)
      | .error e => .error (.malformed "m.login.application_service" e)
  | some "m.login.camino" =>
      match CaminoLoginInfo.deserialize j with
      | .ok d => .ok (.Camino d)
      | .error e => .error (.malformed "m.login.camino" e)
  | some t =>
      match CustomLoginInfo.deserialize j with
      | .ok d => .ok (._Custom d)
      | .error e => .error (.malformed t e)

/-- The four discriminator strings with a typed variant. -/
def isKnownLoginType (t : String) : Bool :=
  t == "m.login.password" || t == "m.login.token" ||
  t == "m.login.application_service" || t == "m.login.camino"

/-- `LoginInfo::new`: dispatch on the given `login_type`; for a known
discriminator, parse `data` with the typed variant's parser (so it can
fail); for any other discriminator, always succeed with the catch-all
variant storing the discriminator and the raw field map. -/
def LoginInfo.new (login_type : String) (data : List (String × Json)) :
    Except String LoginInfo :=
  match login_type with
  | "m.login.password" => (Password.deserialize (.obj data)).map LoginInfo.Password
  | "m.login.token" => (Token.deserialize (.obj data)).map LoginInfo.Token
  | "m.login.application_service" =>
      (ApplicationService.deserialize (.obj data)).map LoginInfo.ApplicationService
  | "m.login.camino" => (CaminoLoginInfo.deserialize (.obj data)).map LoginInfo.Camino
  | _ => .ok (LoginInfo._Custom { login_type := login_type, extra := data })

/-- Escaping performed by the debug rendering of a string value. -/
def debugEscape (s : String) : String :=
  String.mk (s.toList.foldr
    (fun c acc =>
      if c = '"' then '\\' :: '"' :: acc
      else if c = '\\' then '\\' :: '\\' :: acc
      else c :: acc) [])

/-- Debug rendering of a string value: quoted and escaped. -/
def debugStr (s : String) : String :=
  "\"" ++ debugEscape s ++ "\""

/-- Modelled from the spec: debug rendering of the external identifier type
(both of its alternatives are non-secret and are shown in full). -/
def UserIdentifier.debugFmt : UserIdentifier → String
  | .userIdOrLocalpart user => "UserIdOrLocalpart(" ++ debugStr user ++ ")"
  | .thirdParty medium address =>
      "ThirdParty \x7b medium: " ++ debugStr medium ++ ", address: " ++
        debugStr address ++ " \x7d"

/-- The manual `Debug` impl for `Password`: destructures `password` without
using it and prints only the `identifier` field, ending with the
non-exhaustive marker. -/
def Password.debugFmt (p : Password) : String :=
  "Password \x7b identifier: " ++ p.identifier.debugFmt ++ ", .. \x7d"

/-- The manual `Debug` impl for `Token`: destructures `token` without using
it and prints no field at all. -/
def Token.debugFmt (_t : Token) : String :=
  "Token \x7b .. \x7d"

/-- The derived `Debug` impl for `ApplicationService` (its only field is
non-secret and is shown). -/
def ApplicationService.debugFmt (a : ApplicationService) : String :=
  "ApplicationService \x7b identifier: " ++ a.identifier.debugFmt ++ " \x7d"

/-- The manual `Debug` impl for `CustomLoginInfo`: destructures `extra`
without using it and prints only the `login_type` field. -/
def CustomLoginInfo.debugFmt (c : CustomLoginInfo) : String :=
  "CustomLoginInfo \x7b login_type: " ++ debugStr c.login_type ++ ", .. \x7d"

/-- The manual `Debug` impl for `CaminoLoginInfo`: destructures `signature`
without using it and prints only the `public_key` field. -/
def CaminoLoginInfo.debugFmt (c : CaminoLoginInfo) : String :=
  "CaminoLoginInfo \x7b public_key: " ++ debugStr c.public_key ++ ", .. \x7d"

/-- The manual `Debug` impl for `LoginInfo`: delegates to the variant's own
rendering. -/
def LoginInfo.debugFmt : LoginInfo → String
  | .Password p => p.debugFmt
  | .Token t => t.debugFmt
  | .ApplicationService a => a.debugFmt
  | ._Custom c => c.debugFmt
  | .Camino c => c.debugFmt

/-- Whether one list of characters starts with another. -/
def listLeadsWith : List Char → List Char → Bool
  | [], _ => true
  | _ :: _, [] => false
  | a :: as, b :: bs => a == b && listLeadsWith as bs

/-- Whether `needle` occurs as a contiguous substring of `hay`. -/
def strOccurs (needle hay : String) : Bool :=
  (List.range (hay.toList.length + 1)).any
    (fun i => listLeadsWith needle.toList (hay.toList.drop i))

/-- Modelled from the spec: the `auth` container of the request (external
`AuthData`, holding either an authentication payload or interactive-auth
challenge data) is out of scope and treated opaquely, as an arbitrary
JSON payload. -/
structure AuthData where
  payload : Json

/-- Modelled from the spec: serialization of the opaque `auth` container. -/
def AuthData.serialize (a : AuthData) : Json :=
  a.payload

/-- The `Request` body of the login endpoint. Device and display-name
strings model the external owned string types. -/
structure Request where
  identifier : UserIdentifier
  auth : Option AuthData
  device_id : Option String
  initial_device_display_name : Option String
  refresh_token : Bool

/-- `Request::new`. -/
def Request.new (username : String) (auth : AuthData) : Request :=
  { identifier := .userIdOrLocalpart username, auth := some auth,
    device_id := none, initial_device_display_name := none,
    refresh_token := false }

/-- One optional field of a serialized object: omitted entirely when the
value is absent (the `skip_serializing_if = "Option::is_none"` rule). -/
def optField (k : String) (f : α → Json) : Option α → List (String × Json)
  | none => []
  | some x => [(k, f x)]

/-- Serialization of `Request`: optional fields are omitted when absent, and
`refresh_token` carries `skip_serializing_if = "is_default"`, so it is
omitted exactly when it equals the default `false`. -/
def Request.serializeFields (r : Request) : List (String × Json) :=
  [("identifier", r.identifier.serialize)]
  ++ optField "auth" AuthData.serialize r.auth
  ++ optField "device_id" Json.str r.device_id
  ++ optField "initial_device_display_name" Json.str r.initial_device_display_name
  ++ (if r.refresh_token then [("refresh_token", .bool r.refresh_token)] else [])

/-- `HomeserverInfo`. -/
structure HomeserverInfo where
  base_url : String
deriving DecidableEq

/-- `HomeserverInfo::new`. -/
def HomeserverInfo.new (base_url : String) : HomeserverInfo :=
  { base_url }

/-- `IdentityServerInfo`. -/
structure IdentityServerInfo where
  base_url : String
deriving DecidableEq

/-- `IdentityServerInfo::new`. -/
def IdentityServerInfo.new (base_url : String) : IdentityServerInfo :=
  { base_url }

/-- `DiscoveryInfo`: the `well_known` client configuration. -/
structure DiscoveryInfo where
  homeserver : HomeserverInfo
  identity_server : Option IdentityServerInfo
deriving DecidableEq

/-- `DiscoveryInfo::new`. -/
def DiscoveryInfo.new (homeserver : HomeserverInfo) : DiscoveryInfo :=
  { homeserver, identity_server := none }

/-- Serialization of `HomeserverInfo`. -/
def HomeserverInfo.serialize (h : HomeserverInfo) : Json :=
  .obj [("base_url", .str h.base_url)]

/-- Serialization of `IdentityServerInfo`. -/
def IdentityServerInfo.serialize (i : IdentityServerInfo) : Json :=
  .obj [("base_url", .str i.base_url)]

/-- Serialization of `DiscoveryInfo`: `m.identity_server` has no skip rule,
so an absent identity server is emitted as `null`. -/
def DiscoveryInfo.serialize (d : DiscoveryInfo) : Json :=
  .obj [("m.homeserver", d.homeserver.serialize),
        ("m.identity_server",
          match d.identity_server with
          | none => .null
          | some i => i.serialize)]

/-- Deserialization of `HomeserverInfo`. -/
def HomeserverInfo.deserialize : Json → Except String HomeserverInfo
  | .obj fields =>
    match jlookup "base_url" fields with
    | some (.str s) => .ok { base_url := s }
    | some _ => .error "invalid type for field base_url"
    | none => .error "missing field base_url"
  | _ => .error "invalid type: expected object"

/-- Deserialization of `IdentityServerInfo`. -/
def IdentityServerInfo.deserialize : Json → Except String IdentityServerInfo
  | .obj fields =>
    match jlookup "base_url" fields with
    | some (.str s) => .ok { base_url := s }
    | some _ => .error "invalid type for field base_url"
    | none => .error "missing field base_url"
  | _ => .error "invalid type: expected object"

/-- Deserialization of `DiscoveryInfo`: the homeserver entry is required,
the identity-server entry is optional (absent or `null` gives `none`). -/
def DiscoveryInfo.deserialize : Json → Except String DiscoveryInfo
  | .obj fields =>
    match jlookup "m.homeserver" fields with
    | none => .error "missing field m.homeserver"
    | some hj =>
      match HomeserverInfo.deserialize hj with
      | .error e => .error e
      | .ok hs =>
        match jlookup "m.identity_server" fields with
        | none => .ok { homeserver := hs, identity_server := none }
        | some .null => .ok { homeserver := hs, identity_server := none }
        | some ij =>
          match IdentityServerInfo.deserialize ij with
          | .error e => .error e
          | .ok i => .ok { homeserver := hs, identity_server := some i }
  | _ => .error "invalid type: expected object"

/-- The `Response` body of the login endpoint. The external owned id types
(user id, server name, device id) are modelled as strings; `expires_in`
is the duration in whole milliseconds, as carried on the wire. -/
structure Response where
  user_id : String
  access_token : String
  home_server : Option String
  device_id : String
  well_known : Option DiscoveryInfo
  refresh_token : Option String
  expires_in : Option Nat
deriving DecidableEq

/-- `Response::new`: the three mandatory fields, every optional field
defaulted to absent. -/
def Response.new (user_id : String) (access_token : String) (device_id : String) :
    Response :=
  { user_id, access_token, home_server := none, device_id,
    well_known := none, refresh_token := none, expires_in := none }

/-- Reading a required string field from its looked-up value. -/
def fieldReqStr (name : String) : Option Json → Except String String
  | some (.str s) => .ok s
  | some _ => .error ("invalid type for field " ++ name)
  | none => .error ("missing field " ++ name)

/-- Reading an optional string field from its looked-up value: absent or
`null` gives `none`. -/
def fieldOptStr (name : String) : Option Json → Except String (Option String)
  | none => .ok none
  | some .null => .ok none
  | some (.str s) => .ok (some s)
  | some _ => .error ("invalid type for field " ++ name)

/-- Reading the optional `well_known` field from its looked-up value. -/
def fieldOptWellKnown : Option Json → Except String (Option DiscoveryInfo)
  | none => .ok none
  | some .null => .ok none
  | some j =>
    match DiscoveryInfo.deserialize j with
    | .error e => .error e
    | .ok d => .ok (some d)

/-- Reading the optional millisecond-count field (`opt_ms` with `default`):
absent or `null` gives `none`; a nonnegative integer gives its value as a
millisecond duration; anything else fails. -/
def fieldOptMs (name : String) : Option Json → Except String (Option Nat)
  | none => .ok none
  | some .null => .ok none
  | some (.num n) =>
      if 0 ≤ n then .ok (some n.toNat)
      else .error ("invalid value for field " ++ name)
  | some _ => .error ("invalid type for field " ++ name)

/-- The field-wise core of `Response` deserialization, taking the looked-up
value of each named field. -/
def decodeResponseCore (u t hs d w rt e : Option Json) : Except String Response :=
  match fieldReqStr "user_id" u with
  | .error err => .error err
  | .ok uid =>
    match fieldReqStr "access_token" t with
    | .error err => .error err
    | .ok tok =>
      match fieldOptStr "home_server" hs with
      | .error err => .error err
      | .ok hsv =>
        match fieldReqStr "device_id" d with
        | .error err => .error err
        | .ok dev =>
          match fieldOptWellKnown w with
          | .error err => .error err
          | .ok wk =>
            match fieldOptStr "refresh_token" rt with
            | .error err => .error err
            | .ok rtv =>
              match fieldOptMs "expires_in_ms" e with
              | .error err => .error err
              | .ok em =>
                .ok { user_id := uid, access_token := tok, home_server := hsv,
                      device_id := dev, well_known := wk, refresh_token := rtv,
                      expires_in := em }

/-- Deserialization of `Response`: each field is read by its wire name from
the object (unknown fields are ignored; the deprecated `home_server`
field still decodes). -/
def Response.deserialize : Json → Except String Response
  | .obj fields =>
      decodeResponseCore (jlookup "user_id" fields) (jlookup "access_token" fields)
        (jlookup "home_server" fields) (jlookup "device_id" fields)
        (jlookup "well_known" fields) (jlookup "refresh_token" fields)
        (jlookup "expires_in_ms" fields)
  | _ => .error "invalid type: expected object"

/-- Serialization of `Response`: required fields always emitted, optional
fields omitted entirely when absent, `expires_in` emitted under the wire
name `expires_in_ms` as an integer count of milliseconds. -/
def Response.serializeFields (r : Response) : List (String × Json) :=
  [("user_id", .str r.user_id), ("access_token", .str r.access_token)]
  ++ optField "home_server" Json.str r.home_server
  ++ [("device_id", .str r.device_id)]
  ++ optField "well_known" DiscoveryInfo.serialize r.well_known
  ++ optField "refresh_token" Json.str r.refresh_token
  ++ optField "expires_in_ms" (fun n => .num (Int.ofNat n)) r.expires_in

/-- Round-trip of the modelled external identifier codec. -/
theorem UserIdentifier.deserialize_serialize (i : UserIdentifier) :
    UserIdentifier.deserialize i.serialize = .ok i := by
  cases i <;> rfl

/-- Whether the discriminator field `type` is absent or not a string: on an
object, there is no `type` entry or its value is not a JSON string; any
non-object input has no fields at all. -/
def typeFieldMissingOrNonStr (j : Json) : Bool :=
  match j with
  | .obj fields =>
    match jlookup "type" fields with
    | none => true
    | some (.str _) => false
    | some _ => true
  | _ => true

/-- Claim C1: for every known variant of `LoginInfo` (Password, Token,
ApplicationService, Camino) with a valid payload, decoding the encoded
JSON form yields a value equal to the original. -/
theorem claim_C1_known_variant_roundtrip :
    (∀ p : Password,
      LoginInfo.deserialize (LoginInfo.serialize (.Password p)) = .ok (.Password p)) ∧
    (∀ t : Token,
      LoginInfo.deserialize (LoginInfo.serialize (.Token t)) = .ok (.Token t)) ∧
    (∀ a : ApplicationService,
      LoginInfo.deserialize (LoginInfo.serialize (.ApplicationService a)) =
        .ok (.ApplicationService a)) ∧
    (∀ c : CaminoLoginInfo,
      LoginInfo.deserialize (LoginInfo.serialize (.Camino c)) = .ok (.Camino c)) := by
  refine ⟨fun p => ?_, fun t => ?_, fun a => ?_, fun c => ?_⟩
  · cases p with | mk ident pw => cases ident <;> rfl
  · cases t
    rfl
  · cases a with | mk ident => cases ident <;> rfl
  · cases c
    rfl

/-- Claim C3: for every JSON input whose `type` field is absent or not a
string, decoding a `LoginInfo` fails with exactly the missing-field error
for `type` (the MissingDiscriminator case). -/
theorem claim_C3_missing_discriminator (j : Json)
    (h : typeFieldMissingOrNonStr j = true) :
    LoginInfo.deserialize j = .error (.missingField "type") := by
  have hnone : Json.asStr (Json.index j "type") = none := by
    cases j with
    | obj fields =>
      simp only [typeFieldMissingOrNonStr] at h
      simp only [Json.index]
      cases hl : jlookup "type" fields with
      | none => rfl
      | some v =>
        rw [hl] at h
        cases v <;> simp_all [Json.asStr]
    | null => rfl
    | bool b => rfl
    | num n => rfl
    | str s => rfl
    | arr elems => rfl
  simp [LoginInfo.deserialize, hnone]

/-- Witness for claim C3 at a concrete input: an object carrying only an
`identifier` field has no discriminator, and decoding it reports the
missing `type` field. -/
theorem claim_C3_missing_discriminator_witness :
    typeFieldMissingOrNonStr (.obj [("identifier", .str "x")]) = true ∧
    LoginInfo.deserialize (.obj [("identifier", .str "x")]) =
      .error (.missingField "type") :=
  ⟨rfl, claim_C3_missing_discriminator (.obj [("identifier", .str "x")]) rfl⟩

/-- Claim C5 counterexample: the claim that the debug rendering never
contains the secret value fails in the degenerate case where the secret
equals text of the fixed format: the token string `Token` does occur in
the debug rendering of `Token \x7b token: "Token" \x7d`. -/
theorem claim_C5_counterexample :
    strOccurs "Token" (LoginInfo.debugFmt (.Token { token := "Token" })) = true := by
  decide

/-- Claim C5 (amended): the debug renderings of `Password`, `Token` and
`CaminoLoginInfo` do not depend on the secret field (password, token,
signature): two values differing only in the secret render identically;
and in the spec's concrete scenarios the secrets `1234567890abcdef` and
`ilovebananas` do not occur in the rendering. -/
theorem claim_C5_secret_redaction :
    (∀ (i : UserIdentifier) (pw1 pw2 : String),
      LoginInfo.debugFmt (.Password { identifier := i, password := pw1 }) =
        LoginInfo.debugFmt (.Password { identifier := i, password := pw2 })) ∧
    (∀ t1 t2 : String,
      LoginInfo.debugFmt (.Token { token := t1 }) =
        LoginInfo.debugFmt (.Token { token := t2 })) ∧
    (∀ (pk s1 s2 : String),
      LoginInfo.debugFmt (.Camino { public_key := pk, signature := s1 }) =
        LoginInfo.debugFmt (.Camino { public_key := pk, signature := s2 })) ∧
    strOccurs "1234567890abcdef"
      (LoginInfo.debugFmt (.Token { token := "1234567890abcdef" })) = false ∧
    strOccurs "ilovebananas"
      (LoginInfo.debugFmt (.Password
        { identifier := .userIdOrLocalpart "cheeky_monkey",
          password := "ilovebananas" })) = false := by
  refine ⟨fun i pw1 pw2 => rfl, fun t1 t2 => rfl, fun pk s1 s2 => rfl, ?_, ?_⟩
  · decide
  · decide

/-- Claim C10: the debug rendering of the catch-all variant shows only the
stored discriminator string, omitting every key and value of the extra
field map: it equals the fixed format applied to the discriminator alone,
so two values with the same discriminator but different extra maps render
identically. -/
theorem claim_C10_custom_debug_redaction :
    ∀ (t : String) (e1 e2 : List (String × Json)),
      LoginInfo.debugFmt (._Custom { login_type := t, extra := e1 }) =
        "CustomLoginInfo \x7b login_type: " ++ debugStr t ++ ", .. \x7d" ∧
      LoginInfo.debugFmt (._Custom { login_type := t, extra := e1 }) =
        LoginInfo.debugFmt (._Custom { login_type := t, extra := e2 }) :=
  fun _ _ _ => ⟨rfl, rfl⟩

/-- Claim C6 counterexample: serializing a request whose `refresh_token`
field is `false` omits the `refresh_token` key entirely, so the field is
not always emitted. -/
theorem claim_C6_counterexample :
    jlookup "refresh_token"
      (Request.serializeFields
        { identifier := .userIdOrLocalpart "alice", auth := none,
          device_id := none, initial_device_display_name := none,
          refresh_token := false }) = none := rfl

/-- Claim C6 (amended): the serialized request carries the `refresh_token`
field exactly when the flag is `true`; at its default value `false` (the
`is_default` skip rule) the field is omitted entirely. -/
theorem claim_C6_refresh_token_skipped_at_default (r : Request) :
    jlookup "refresh_token" (Request.serializeFields r) =
      if r.refresh_token then some (.bool true) else none := by
  cases r with
  | mk ident auth dev disp rt =>
    cases auth <;> cases dev <;> cases disp <;> cases rt <;> rfl

/-- Whether a `LoginInfo::new` result is a successfully built catch-all
(`_Custom`) value. -/
def isCustomResult : Except String LoginInfo → Bool
  | .ok (._Custom _) => true
  | _ => false

/-- Claim C7 counterexample: there is no raw field map for which
`LoginInfo::new` with the known discriminator `m.login.password` returns
the catch-all variant; that branch always builds the typed `Password`
variant or fails. -/
theorem claim_C7_counterexample :
    (∃ (data : List (String × Json)) (c : CustomLoginInfo),
      LoginInfo.new "m.login.password" data = .ok (._Custom c)) = False := by
  refine eq_false ?_
  rintro ⟨data, c, h⟩
  rw [LoginInfo.new] at h
  cases hp : Password.deserialize (.obj data) <;> rw [hp] at h <;>
    simp [Except.map] at h

/-- Claim C7 (amended): `LoginInfo::new` builds the catch-all `_Custom`
variant exactly for discriminators that are not one of the four known
tags; for a known tag it returns the typed variant or an error, never the
catch-all. -/
theorem claim_C7_new_custom_iff_unknown (t : String) (data : List (String × Json)) :
    isCustomResult (LoginInfo.new t data) = !(isKnownLoginType t) := by
  by_cases h1 : t = "m.login.password"
  · subst h1
    cases hp : Password.deserialize (.obj data) <;>
      simp [LoginInfo.new, hp, Except.map, isCustomResult, isKnownLoginType]
  by_cases h2 : t = "m.login.token"
  · subst h2
    cases hp : Token.deserialize (.obj data) <;>
      simp [LoginInfo.new, hp, Except.map, isCustomResult, isKnownLoginType]
  by_cases h3 : t = "m.login.application_service"
  · subst h3
    cases hp : ApplicationService.deserialize (.obj data) <;>
      simp [LoginInfo.new, hp, Except.map, isCustomResult, isKnownLoginType]
  by_cases h4 : t = "m.login.camino"
  · subst h4
    cases hp : CaminoLoginInfo.deserialize (.obj data) <;>
      simp [LoginInfo.new, hp, Except.map, isCustomResult, isKnownLoginType]
  rw [LoginInfo.new.eq_5 t data (fun h => h1 h) (fun h => h2 h) (fun h => h3 h)
    (fun h => h4 h)]
  simp [isCustomResult, isKnownLoginType, h1, h2, h3, h4]

/-- Whether a decode outcome is acceptable for a known discriminator `t`:
either a successfully parsed value that is not the catch-all variant, or
a failure whose error is the malformed-variant error naming `t`; a
catch-all success or a missing-discriminator error is not. -/
def okOrMalformedFor (t : String) : Except DeError LoginInfo → Bool
  | .ok (._Custom _) => false
  | .ok _ => true
  | .error (.malformed t2 _) => t2 == t
  | .error (.missingField _) => false

/-- Claim C4: for every JSON value whose `type` field is one of the four
known discriminator strings, decoding either yields the typed variant or
fails with the malformed-variant error for that discriminator; it never
succeeds by falling back to the catch-all `_Custom` variant, and never
reports a missing discriminator. -/
theorem claim_C4_known_tag_no_fallback (j : Json) (t : String)
    (hty : Json.asStr (Json.index j "type") = some t)
    (hknown : isKnownLoginType t = true) :
    okOrMalformedFor t (LoginInfo.deserialize j) = true := by
  have ht : t = "m.login.password" ∨ t = "m.login.token" ∨
      t = "m.login.application_service" ∨ t = "m.login.camino" := by
    simpa [isKnownLoginType, or_assoc] using hknown
  rcases ht with h | h | h | h <;> subst h <;>
    rw [LoginInfo.deserialize.eq_def, hty]
  · cases hp : Password.deserialize j <;> simp [hp, okOrMalformedFor]
  · cases hp : Token.deserialize j <;> simp [hp, okOrMalformedFor]
  · cases hp : ApplicationService.deserialize j <;> simp [hp, okOrMalformedFor]
  · cases hp : CaminoLoginInfo.deserialize j <;> simp [hp, okOrMalformedFor]

/-- Witness for claim C4 at the spec's concrete input: an object tagged
`m.login.password` whose remaining fields lack the `password` field
decodes to the malformed-variant error for that discriminator, not to the
catch-all variant. -/
theorem claim_C4_known_tag_no_fallback_witness :
    Json.asStr (Json.index (.obj [("type", .str "m.login.password"),
      ("identifier", .obj [("type", .str "m.id.user"),
        ("user", .str "cheeky_monkey")])]) "type") = some "m.login.password" ∧
    isKnownLoginType "m.login.password" = true ∧
    okOrMalformedFor "m.login.password"
      (LoginInfo.deserialize (.obj [("type", .str "m.login.password"),
        ("identifier", .obj [("type", .str "m.id.user"),
          ("user", .str "cheeky_monkey")])])) = true ∧
    LoginInfo.deserialize (.obj [("type", .str "m.login.password"),
      ("identifier", .obj [("type", .str "m.id.user"),
        ("user", .str "cheeky_monkey")])]) =
      .error (.malformed "m.login.password" "missing field password") :=
  ⟨rfl, rfl,
    claim_C4_known_tag_no_fallback (.obj [("type", .str "m.login.password"),
      ("identifier", .obj [("type", .str "m.id.user"),
        ("user", .str "cheeky_monkey")])]) "m.login.password" rfl rfl,
    rfl⟩

/-- A field list with a unique `type` entry is a permutation of that entry
followed by the list with every `type` entry removed. -/
theorem perm_cons_eraseKeyAll (k : String) (v : Json) :
    ∀ l : List (String × Json), jlookup k l = some v → (l.map Prod.fst).Nodup →
      List.Perm ((k, v) :: eraseKeyAll k l) l := by
  intro l
  induction l with
  | nil => intro h _; simp [jlookup] at h
  | cons p rest ih =>
    intro h hnd
    obtain ⟨k2, v2⟩ := p
    simp only [List.map_cons, List.nodup_cons] at hnd
    by_cases hk : k = k2
    · subst hk
      rw [jlookup, if_pos rfl] at h
      have hv := Option.some.inj h
      have herase : eraseKeyAll k ((k, v2) :: rest) = rest := by
        simp only [eraseKeyAll, List.filter_cons]
        rw [show (!(k == k)) = false by simp]
        simp only [Bool.false_eq_true, if_false]
        refine List.filter_eq_self.mpr (fun q hq => ?_)
        have hne : q.1 ≠ k := by
          intro he
          exact hnd.1 (he ▸ List.mem_map_of_mem Prod.fst hq)
        simp [hne]
      rw [herase, ← hv]
    · rw [jlookup, if_neg hk] at h
      have herase : eraseKeyAll k ((k2, v2) :: rest) = (k2, v2) :: eraseKeyAll k rest := by
        simp only [eraseKeyAll, List.filter_cons]
        rw [show (!(k2 == k)) = true by simp [Ne.symm hk]]
        simp
      rw [herase]
      exact (List.Perm.swap _ _ _).trans ((ih h hnd.2).cons (k2, v2))

/-- Claim C2: decoding an object whose `type` field is a string that matches
none of the four known discriminators always succeeds with the catch-all
`_Custom` variant (discriminator plus all remaining fields), and encoding
that result reproduces the original object's key/value pairs exactly, up
to field order. -/
theorem claim_C2_unknown_type_roundtrip (fields : List (String × Json)) (t : String)
    (hty : jlookup "type" fields = some (.str t))
    (hunknown : isKnownLoginType t = false)
    (hnd : (fields.map Prod.fst).Nodup) :
    LoginInfo.deserialize (.obj fields) =
      .ok (._Custom { login_type := t, extra := eraseKeyAll "type" fields }) ∧
    List.Perm
      (LoginInfo.serializeFields
        (._Custom { login_type := t, extra := eraseKeyAll "type" fields }))
      fields := by
  have hne : ¬(t = "m.login.password") ∧ ¬(t = "m.login.token") ∧
      ¬(t = "m.login.application_service") ∧ ¬(t = "m.login.camino") := by
    simpa [isKnownLoginType, not_or, and_assoc] using hunknown
  have hidx : Json.asStr (Json.index (.obj fields) "type") = some t := by
    simp [Json.index, hty, Json.asStr]
  constructor
  · rw [LoginInfo.deserialize.eq_def, hidx]
    split
    · rename_i heq
      exact Option.noConfusion heq
    · rename_i heq
      injection heq with heq
      exact absurd heq hne.1
    · rename_i heq
      injection heq with heq
      exact absurd heq hne.2.1
    · rename_i heq
      injection heq with heq
      exact absurd heq hne.2.2.1
    · rename_i heq
      injection heq with heq
      exact absurd heq hne.2.2.2
    · rename_i t2 hne1 hne2 hne3 hne4 heq
      injection heq with heq
      subst heq
      simp [CustomLoginInfo.deserialize, hty]
  · exact perm_cons_eraseKeyAll "type" (.str t) fields hty hnd

/-- Witness for claim C2 at a concrete input: an object with the unknown
discriminator `m.login.foo` and one extra field decodes to the catch-all
variant, and re-encoding reproduces the object. -/
theorem claim_C2_unknown_type_roundtrip_witness :
    LoginInfo.deserialize (.obj [("type", .str "m.login.foo"), ("bar", .str "x")]) =
      .ok (._Custom { login_type := "m.login.foo", extra := [("bar", .str "x")] }) ∧
    List.Perm
      (LoginInfo.serializeFields
        (._Custom { login_type := "m.login.foo", extra := [("bar", .str "x")] }))
      [("type", .str "m.login.foo"), ("bar", .str "x")] :=
  claim_C2_unknown_type_roundtrip [("type", .str "m.login.foo"), ("bar", .str "x")]
    "m.login.foo" rfl rfl (by decide)

/-- Characterization of a successful `Response` decode in terms of its seven
field readers. -/
theorem decodeResponseCore_ok_iff (u t hs d w rt e : Option Json) (r : Response) :
    decodeResponseCore u t hs d w rt e = .ok r ↔
      (fieldReqStr "user_id" u = .ok r.user_id ∧
       fieldReqStr "access_token" t = .ok r.access_token ∧
       fieldOptStr "home_server" hs = .ok r.home_server ∧
       fieldReqStr "device_id" d = .ok r.device_id ∧
       fieldOptWellKnown w = .ok r.well_known ∧
       fieldOptStr "refresh_token" rt = .ok r.refresh_token ∧
       fieldOptMs "expires_in_ms" e = .ok r.expires_in) := by
  constructor
  · intro h
    rw [decodeResponseCore] at h
    repeat' split at h
    any_goals exact Except.noConfusion h
    injection h with h
    subst h
    refine ⟨?_, ?_, ?_, ?_, ?_, ?_, ?_⟩ <;> assumption
  · rintro ⟨h1, h2, h3, h4, h5, h6, h7⟩
    rw [decodeResponseCore, h1, h2, h3, h4, h5, h6, h7]

/-- Claim C8: a response object without the `expires_in_ms` field has that
absence read as "no expiry" (the reader succeeds with `none`), any
successfully decoded such response carries `expires_in = none`, and
re-encoding it omits the `expires_in_ms` key entirely (it is not emitted
as `null`). -/
theorem claim_C8_expires_in_absent (fields : List (String × Json)) (r : Response)
    (habs : jlookup "expires_in_ms" fields = none)
    (hdec : Response.deserialize (.obj fields) = .ok r) :
    fieldOptMs "expires_in_ms" (jlookup "expires_in_ms" fields) = .ok none ∧
    r.expires_in = none ∧
    jlookup "expires_in_ms" (Response.serializeFields r) = none := by
  rw [Response.deserialize, decodeResponseCore_ok_iff] at hdec
  obtain ⟨_, _, _, _, _, _, h7⟩ := hdec
  rw [habs] at h7
  have hexp : r.expires_in = none := by
    have := h7.symm
    simpa [fieldOptMs] using this
  refine ⟨by rw [habs]; rfl, hexp, ?_⟩
  cases r with
  | mk uid tok hs dev wk rt em =>
    simp only at hexp
    subst hexp
    cases hs <;> cases wk <;> cases rt <;> rfl

/-- Witness for claim C8 at a concrete input: a minimal valid response
object without `expires_in_ms` decodes with no expiry, and re-encodes
without the key. -/
theorem claim_C8_expires_in_absent_witness :
    jlookup "expires_in_ms" [("user_id", .str "@a:b"), ("access_token", .str "tok"),
      ("device_id", .str "dev")] = none ∧
    Response.deserialize (.obj [("user_id", .str "@a:b"), ("access_token", .str "tok"),
      ("device_id", .str "dev")]) =
      .ok { user_id := "@a:b", access_token := "tok", home_server := none,
            device_id := "dev", well_known := none, refresh_token := none,
            expires_in := none } ∧
    ({ user_id := "@a:b", access_token := "tok", home_server := none,
       device_id := "dev", well_known := none, refresh_token := none,
       expires_in := none } : Response).expires_in = none ∧
    jlookup "expires_in_ms"
      (Response.serializeFields
        { user_id := "@a:b", access_token := "tok", home_server := none,
          device_id := "dev", well_known := none, refresh_token := none,
          expires_in := none }) = none :=
  ⟨rfl, rfl,
    (claim_C8_expires_in_absent [("user_id", .str "@a:b"), ("access_token", .str "tok"),
      ("device_id", .str "dev")]
      { user_id := "@a:b", access_token := "tok", home_server := none,
        device_id := "dev", well_known := none, refresh_token := none,
        expires_in := none } rfl rfl).2.1,
    (claim_C8_expires_in_absent [("user_id", .str "@a:b"), ("access_token", .str "tok"),
      ("device_id", .str "dev")]
      { user_id := "@a:b", access_token := "tok", home_server := none,
        device_id := "dev", well_known := none, refresh_token := none,
        expires_in := none } rfl rfl).2.2⟩

/-- Claim C9: the three-argument constructor `Response::new` sets every
optional field (`home_server`, `well_known`, `refresh_token`,
`expires_in`) to absent and its encoding never emits the deprecated
`home_server` field; and any response object extended with a
`home_server` string entry still decodes, carrying that value (the
deprecated field decodes without error). -/
theorem claim_C9_response_new_defaults_and_legacy_decode :
    (∀ uid tok dev : String,
      (Response.new uid tok dev).home_server = none ∧
      (Response.new uid tok dev).well_known = none ∧
      (Response.new uid tok dev).refresh_token = none ∧
      (Response.new uid tok dev).expires_in = none ∧
      jlookup "home_server" (Response.serializeFields (Response.new uid tok dev)) =
        none) ∧
    (∀ (fields : List (String × Json)) (r : Response) (s : String),
      Response.deserialize (.obj fields) = .ok r →
      Response.deserialize (.obj (("home_server", .str s) :: fields)) =
        .ok { r with home_server := some s }) := by
  constructor
  · intro uid tok dev
    exact ⟨rfl, rfl, rfl, rfl, rfl⟩
  · intro fields r s hdec
    rw [Response.deserialize, decodeResponseCore_ok_iff] at hdec
    obtain ⟨h1, h2, h3, h4, h5, h6, h7⟩ := hdec
    rw [Response.deserialize, decodeResponseCore_ok_iff]
    refine ⟨?_, ?_, ?_, ?_, ?_, ?_, ?_⟩
    exacts [h1, h2, rfl, h4, h5, h6, h7]

/-- Witness for claim C9 at a concrete input: a minimal valid response
object extended with the deprecated `home_server` entry still decodes,
with the value stored. -/
theorem claim_C9_response_new_defaults_and_legacy_decode_witness :
    (Response.new "@a:b" "tok" "dev").home_server = none ∧
    jlookup "home_server" (Response.serializeFields (Response.new "@a:b" "tok" "dev")) =
      none ∧
    Response.deserialize (.obj [("user_id", .str "@a:b"), ("access_token", .str "tok"),
      ("device_id", .str "dev")]) =
      .ok { user_id := "@a:b", access_token := "tok", home_server := none,
            device_id := "dev", well_known := none, refresh_token := none,
            expires_in := none } ∧
    Response.deserialize (.obj [("home_server", .str "matrix.org"),
      ("user_id", .str "@a:b"), ("access_token", .str "tok"),
      ("device_id", .str "dev")]) =
      .ok { user_id := "@a:b", access_token := "tok", home_server := some "matrix.org",
            device_id := "dev", well_known := none, refresh_token := none,
            expires_in := none } :=
  ⟨(claim_C9_response_new_defaults_and_legacy_decode.1 "@a:b" "tok" "dev").1,
    (claim_C9_response_new_defaults_and_legacy_decode.1 "@a:b" "tok" "dev").2.2.2.2,
    rfl,
    claim_C9_response_new_defaults_and_legacy_decode.2
      [("user_id", .str "@a:b"), ("access_token", .str "tok"),
        ("device_id", .str "dev")]
      { user_id := "@a:b", access_token := "tok", home_server := none,
        device_id := "dev", well_known := none, refresh_token := none,
        expires_in := none } "matrix.org" rfl⟩
